import Mathlib

/-!
Shallow embedding of the tool-calling conversation loop of
`src/agent_app.py` (`CloudAuditAgent.chat` together with `_EXEC_MAP` and
the argument-coercion closures).  The external collaborators — the Vertex
chat session (the "model gateway") and the data-source connectors
(`services.gcp_connector`, `services.gcp_live`) — are parameters of the
embedding: a gateway is a pure function from the list of messages sent so
far to either a response or a raised exception, and a connector bundle is
a record of fallible functions.  Raised Python exceptions are modelled by
`Except String`.
-/

namespace AgentApp

/-- A Python value carried in a tool-call argument map: either an integer
or a string (the shapes the coercion layer `int(kw.get(...))` can meet). -/
inductive PyVal where
  | vInt : Int → PyVal
  | vStr : String → PyVal
  deriving DecidableEq

/-- Python `s.strip()`: drop whitespace from both ends. -/
def pyStrip (s : String) : String :=
  ⟨((s.data.dropWhile Char.isWhitespace).reverse.dropWhile Char.isWhitespace).reverse⟩

/-- The value of a nonempty all-digit character run, `none` otherwise. -/
def digitsToNat : List Char → Option Nat
  | [] => none
  | cs =>
    if cs.all Char.isDigit then
      some (cs.foldl (fun a c => a * 10 + (c.toNat - 48)) 0)
    else none

/-- Python `int(string)`: strip whitespace, allow one sign, then require a
nonempty digit run. -/
def pyIntOfString (s : String) : Option Int :=
  match (pyStrip s).data with
  | '-' :: rest => (digitsToNat rest).map (fun n => -(n : Int))
  | '+' :: rest => (digitsToNat rest).map (fun n => (n : Int))
  | cs => (digitsToNat cs).map (fun n => (n : Int))

/-- Python `int(v)`: identity on integers, parse on strings, raising
`ValueError` otherwise. -/
def pyInt : PyVal → Except String Int
  | PyVal.vInt n => Except.ok n
  | PyVal.vStr s =>
    match pyIntOfString s with
    | some n => Except.ok n
    | none => Except.error ("invalid literal for int with base 10: " ++ s)

/-- A keyword-argument map, as produced by `dict(fc.args)`. -/
abbrev Args := List (String × PyVal)

/-- Python `kw.get(key, dflt)`. -/
def kwGet (kw : Args) (key : String) (dflt : PyVal) : PyVal :=
  match kw.find? (fun p => p.fst == key) with
  | some p => p.snd
  | none => dflt

/-- The data-source functions the five executors delegate to
(`gcp_connector.get_mtd_costs_by_project_service`,
`gcp_connector.get_daily_cost_trend`, `gcp_live.tiles_summary`,
`gcp_live.cpu_timeseries`, `gcp_live.traffic_timeseries`).  They are
external collaborators, so each is an arbitrary fallible function. -/
structure Connectors where
  get_mtd_costs_by_project_service : Except String PyVal
  get_daily_cost_trend : Int → Except String PyVal
  tiles_summary : Except String PyVal
  cpu_timeseries : Int → Int → Except String PyVal
  traffic_timeseries : Int → Int → Except String PyVal

/-- `_EXEC_MAP` of `agent_app.py`: the dispatch dictionary from capability
name to the argument-coercing closure.  `int(kw.get("days", 30))` etc. are
evaluated inside the closure, hence inside the `try` of the loop. -/
def EXEC_MAP (c : Connectors) (name : String) : Option (Args → Except String PyVal) :=
  if name == "get_mtd_costs" then
    some (fun _ => c.get_mtd_costs_by_project_service)
  else if name == "get_daily_cost_trend" then
    some (fun kw =>
      match pyInt (kwGet kw "days" (PyVal.vInt 30)) with
      | Except.error e => Except.error e
      | Except.ok days => c.get_daily_cost_trend days)
  else if name == "tiles_summary" then
    some (fun _ => c.tiles_summary)
  else if name == "cpu_timeseries" then
    some (fun kw =>
      match pyInt (kwGet kw "minutes" (PyVal.vInt 30)) with
      | Except.error e => Except.error e
      | Except.ok minutes =>
        match pyInt (kwGet kw "step_seconds" (PyVal.vInt 60)) with
        | Except.error e => Except.error e
        | Except.ok stepSeconds => c.cpu_timeseries minutes stepSeconds)
  else if name == "traffic_timeseries" then
    some (fun kw =>
      match pyInt (kwGet kw "minutes" (PyVal.vInt 30)) with
      | Except.error e => Except.error e
      | Except.ok minutes =>
        match pyInt (kwGet kw "step_seconds" (PyVal.vInt 60)) with
        | Except.error e => Except.error e
        | Except.ok stepSeconds => c.traffic_timeseries minutes stepSeconds)
  else none

/-- The body of the `try` block up to `fn(**args)`: look the name up in
`_EXEC_MAP`, raise `ValueError("Unknown tool: ...")` when absent, else run
the closure (whose own exceptions are equally caught by the `except`). -/
def execAttempt (c : Connectors) (name : String) (args : Args) : Except String PyVal :=
  match EXEC_MAP c name with
  | none => Except.error ("Unknown tool: " ++ name)
  | some fn => fn args

/-- One `function_call` entry of a model response (`fc.name`, `fc.args`). -/
structure FC where
  name : String
  args : Args
  deriving DecidableEq

/-- One part of a candidate's content; `getattr(p, "text", "")`. -/
structure Part where
  text : String
  deriving DecidableEq

/-- `candidate.content`. -/
structure Content where
  parts : List Part
  deriving DecidableEq

/-- One candidate of a model response. -/
structure Candidate where
  content : Content
  function_calls : List FC
  deriving DecidableEq

/-- A model response; `resp.candidates` empty models both a missing and an
empty candidate list (both falsy in the guard). -/
structure Resp where
  candidates : List Candidate
  deriving DecidableEq

deriving instance DecidableEq for Except

/-- A message sent into the chat session: the initial user query, or a
`function_response` payload carrying either the tool result or the
`error` dict built from the caught exception. -/
inductive Msg where
  | userQuery : String → Msg
  | funcResponse : String → Except String PyVal → Msg
  deriving DecidableEq

/-- The model gateway: `chat.send_message` as a pure function of the whole
message history sent so far (last message included); `Except.error`
models the call itself raising. -/
abbrev Gateway := List Msg → Except String Resp

/-- One entry of the `calls` audit list: `error` is present iff `ok` is
false. -/
structure Trace where
  name : String
  args : Args
  ok : Bool
  error : Option String
  deriving DecidableEq

/-- The value returned by `chat`. -/
structure Envelope where
  text : String
  calls : List Trace
  deriving DecidableEq

/-- `"".join(getattr(p, "text", "") for p in parts)`. -/
def joinParts (parts : List Part) : String :=
  parts.foldl (fun acc p => acc ++ p.text) ""

/-- Python `s or dflt` on strings: the empty string is falsy. -/
def pyOr (s dflt : String) : String :=
  if s = "" then dflt else s

/-- The message of the `IndexError` raised by `resp.candidates[0]` on an
empty candidate list. -/
def indexErrorMsg : String := "IndexError: list index out of range"

/-- The fallback epilogue after the `for` loop (reached by `break` or by
round-budget exhaustion): reads `resp.candidates[0]` without a guard. -/
def fallback (resp : Resp) (calls : List Trace) : Except String Envelope :=
  match resp.candidates with
  | [] => Except.error indexErrorMsg
  | cand :: _ =>
    Except.ok ⟨pyOr (pyStrip (joinParts cand.content.parts)) "(no final text)", calls⟩

/-- The `for _ in range(6)` body of `CloudAuditAgent.chat`, with the fuel
counting the remaining iterations.  Mirrors the source line by line:
break on a falsy candidate list; return the stripped text when there is no
function call; else execute `fcs[-1]` under `try`, append a trace entry,
send the result (or the error payload) back, and continue.  An exception
raised by the success-path `send_message` is caught by the same `except`,
which appends a second trace entry and sends the error payload; an
exception raised by the `except`-path `send_message` propagates. -/
def loop (gw : Gateway) (c : Connectors) :
    Nat → List Msg → Resp → List Trace → Except String Envelope
  | 0, _, resp, calls => fallback resp calls
  | n + 1, hist, resp, calls =>
    match resp.candidates with
    | [] => fallback resp calls
    | cand :: _ =>
      match cand.function_calls with
      | [] => Except.ok ⟨pyOr (pyStrip (joinParts cand.content.parts)) "No response.", calls⟩
      | f0 :: fs =>
        let fc := fs.getLastD f0
        match execAttempt c fc.name fc.args with
        | Except.ok result =>
          let calls1 := calls ++ [⟨fc.name, fc.args, true, none⟩]
          let hist1 := hist ++ [Msg.funcResponse fc.name (Except.ok result)]
          match gw hist1 with
          | Except.ok r => loop gw c n hist1 r calls1
          | Except.error e =>
            let calls2 := calls1 ++ [⟨fc.name, fc.args, false, some e⟩]
            let hist2 := hist1 ++ [Msg.funcResponse fc.name (Except.error e)]
            match gw hist2 with
            | Except.ok r => loop gw c n hist2 r calls2
            | Except.error e2 => Except.error e2
        | Except.error e =>
          let calls1 := calls ++ [⟨fc.name, fc.args, false, some e⟩]
          let hist1 := hist ++ [Msg.funcResponse fc.name (Except.error e)]
          match gw hist1 with
          | Except.ok r => loop gw c n hist1 r calls1
          | Except.error e2 => Except.error e2

/-- `CloudAuditAgent.chat`: send the query (no validation of any kind
happens first), then run the loop with a budget of six rounds. -/
def chat (gw : Gateway) (c : Connectors) (query : String) : Except String Envelope :=
  match gw [Msg.userQuery query] with
  | Except.error e => Except.error e
  | Except.ok resp => loop gw c 6 [Msg.userQuery query] resp []

/-! Concrete stubs used by witnesses and counterexamples. -/

/-- A connector bundle that always succeeds and echoes the arguments it
was invoked with, so theorems can observe the executed argument. -/
def connEcho : Connectors :=
  ⟨Except.ok (PyVal.vInt 0), fun d => Except.ok (PyVal.vInt d),
   Except.ok (PyVal.vInt 0), fun m s => Except.ok (PyVal.vInt (m + s)),
   fun m s => Except.ok (PyVal.vInt (m + s))⟩

/-- A response whose single candidate requests one `get_mtd_costs` call. -/
def respCall : Resp := ⟨[⟨⟨[]⟩, [⟨"get_mtd_costs", []⟩]⟩]⟩

/-- A response whose single candidate carries final text `s` and no
function calls. -/
def respText (s : String) : Resp := ⟨[⟨⟨[⟨s⟩]⟩, []⟩]⟩

/-- A gateway that always requests another tool call. -/
def gwCall : Gateway := fun _ => Except.ok respCall

/-- A gateway that always answers with final text `s`. -/
def gwText (s : String) : Gateway := fun _ => Except.ok (respText s)

/-- A gateway that always returns a response with no candidates. -/
def gwNoCand : Gateway := fun _ => Except.ok ⟨[]⟩

/-- A gateway that succeeds (with a fresh tool request) on odd history
lengths and raises on even ones: every success-path send fails and every
error-path send succeeds. -/
def gwOddOk : Gateway := fun hist =>
  if hist.length % 2 == 1 then Except.ok respCall else Except.error "boom"

/-- A gateway that succeeds on even history lengths and raises on odd
ones. -/
def gwEvenOk : Gateway := fun hist =>
  if hist.length % 2 == 0 then Except.ok respCall else Except.error "boom"

/-- A connector bundle whose `tiles_summary` data source raises a
connection error. -/
def connBoom : Connectors :=
  ⟨Except.ok (PyVal.vInt 0), fun d => Except.ok (PyVal.vInt d),
   Except.error "ConnectionError: connection refused",
   fun m s => Except.ok (PyVal.vInt (m + s)), fun m s => Except.ok (PyVal.vInt (m + s))⟩

/-- A gateway that "always requests a tool call": every send succeeds and
every response carries at least one function call in its first
candidate. -/
def alwaysCalls (gw : Gateway) : Prop :=
  ∀ hist, ∃ r cand cs f0 fs, gw hist = Except.ok r ∧
    r.candidates = cand :: cs ∧ cand.function_calls = f0 :: fs

/-! Helper lemmas about the loop, shared by the claim theorems. -/

theorem pyOr_ne (s d : String) (hd : d ≠ "") : pyOr s d ≠ "" := by
  unfold pyOr
  split
  · exact hd
  · assumption

theorem fallback_ok (resp : Resp) (calls : List Trace) (env : Envelope)
    (h : fallback resp calls = Except.ok env) : env.text ≠ "" ∧ env.calls = calls := by
  unfold fallback at h
  split at h
  · exact absurd h (by simp)
  · cases h
    exact ⟨pyOr_ne _ _ (by decide), rfl⟩

theorem fallback_error (resp : Resp) (calls : List Trace) (e : String)
    (h : fallback resp calls = Except.error e) : e = indexErrorMsg := by
  unfold fallback at h
  split at h
  · cases h
    rfl
  · exact absurd h (by simp)

/-- Garbage-in bound: whenever the loop returns an envelope, the text is
nonempty and each remaining round added at most two trace entries. -/
theorem loop_ok_bound (gw : Gateway) (c : Connectors) (n : Nat) :
    ∀ (hist : List Msg) (resp : Resp) (calls : List Trace) (env : Envelope),
      loop gw c n hist resp calls = Except.ok env →
      env.text ≠ "" ∧ env.calls.length ≤ calls.length + 2 * n := by
  induction n with
  | zero =>
    intro hist resp calls env h
    have hf := fallback_ok resp calls env h
    exact ⟨hf.1, by simp [hf.2]⟩
  | succ n ih =>
    intro hist resp calls env h
    simp only [loop] at h
    split at h
    · have hf := fallback_ok _ _ _ h
      refine ⟨hf.1, ?_⟩
      rw [hf.2]
      omega
    · split at h
      · cases h
        refine ⟨pyOr_ne _ _ (by decide), by simp⟩
      · split at h
        · split at h
          · have hb := ih _ _ _ _ h
            refine ⟨hb.1, ?_⟩
            have := hb.2
            simp only [List.length_append, List.length_cons, List.length_nil] at this
            omega
          · split at h
            · have hb := ih _ _ _ _ h
              refine ⟨hb.1, ?_⟩
              have := hb.2
              simp only [List.length_append, List.length_cons, List.length_nil] at this
              omega
            · exact absurd h (by simp)
        · split at h
          · have hb := ih _ _ _ _ h
            refine ⟨hb.1, ?_⟩
            have := hb.2
            simp only [List.length_append, List.length_cons, List.length_nil] at this
            omega
          · exact absurd h (by simp)

/-- Every exception the loop lets escape was raised by the gateway, except
for the `IndexError` of the unguarded fallback; executor and data-source
exceptions never escape. -/
theorem loop_error_sources (gw : Gateway) (c : Connectors) (n : Nat) :
    ∀ (hist : List Msg) (resp : Resp) (calls : List Trace) (e : String),
      loop gw c n hist resp calls = Except.error e →
      (∃ hs, gw hs = Except.error e) ∨ e = indexErrorMsg := by
  induction n with
  | zero =>
    intro hist resp calls e h
    exact Or.inr (fallback_error _ _ _ h)
  | succ n ih =>
    intro hist resp calls e h
    simp only [loop] at h
    split at h
    · exact Or.inr (fallback_error _ _ _ h)
    · split at h
      · exact absurd h (by simp)
      · split at h
        · split at h
          · exact ih _ _ _ _ h
          · split at h
            · exact ih _ _ _ _ h
            · cases h
              next heq => exact Or.inl ⟨_, heq⟩
        · split at h
          · exact ih _ _ _ _ h
          · cases h
            next heq => exact Or.inl ⟨_, heq⟩

/-- Every exception `chat` lets escape was raised by the gateway or is the
fallback `IndexError`. -/
theorem chat_error_sources (gw : Gateway) (c : Connectors) (q : String) (e : String)
    (h : chat gw c q = Except.error e) :
    (∃ hs, gw hs = Except.error e) ∨ e = indexErrorMsg := by
  unfold chat at h
  split at h
  · cases h
    next heq => exact Or.inl ⟨_, heq⟩
  · exact loop_error_sources gw c 6 _ _ _ _ h

/-- One round in which there is no function call: the loop returns the
stripped text (or the placeholder) with the accumulated trace. -/
theorem loop_step_final (gw : Gateway) (c : Connectors) (n : Nat) (hist : List Msg)
    (calls : List Trace) (content : Content) (rest : List Candidate) :
    loop gw c (n + 1) hist ⟨⟨content, []⟩ :: rest⟩ calls
      = Except.ok ⟨pyOr (pyStrip (joinParts content.parts)) "No response.", calls⟩ := rfl

/-- One round in which the last proposed call executes successfully and
the gateway accepts the result: one `ok` trace entry is appended. -/
theorem loop_step_exec_ok (gw : Gateway) (c : Connectors) (n : Nat) (hist : List Msg)
    (calls : List Trace) (content : Content) (rest : List Candidate)
    (f0 : FC) (fs : List FC) (result : PyVal) (r : Resp)
    (hex : execAttempt c (fs.getLastD f0).name (fs.getLastD f0).args = Except.ok result)
    (hgw : gw (hist ++ [Msg.funcResponse (fs.getLastD f0).name (Except.ok result)])
      = Except.ok r) :
    loop gw c (n + 1) hist ⟨⟨content, f0 :: fs⟩ :: rest⟩ calls
      = loop gw c n (hist ++ [Msg.funcResponse (fs.getLastD f0).name (Except.ok result)]) r
          (calls ++ [⟨(fs.getLastD f0).name, (fs.getLastD f0).args, true, none⟩]) := by
  simp only [loop, hex, hgw]

/-- One round in which the execution attempt of the last proposed call
raises and the gateway accepts the error payload: one `ok := false` trace
entry is appended and the loop continues. -/
theorem loop_step_exec_error (gw : Gateway) (c : Connectors) (n : Nat) (hist : List Msg)
    (calls : List Trace) (content : Content) (rest : List Candidate)
    (f0 : FC) (fs : List FC) (e : String) (r : Resp)
    (hex : execAttempt c (fs.getLastD f0).name (fs.getLastD f0).args = Except.error e)
    (hgw : gw (hist ++ [Msg.funcResponse (fs.getLastD f0).name (Except.error e)])
      = Except.ok r) :
    loop gw c (n + 1) hist ⟨⟨content, f0 :: fs⟩ :: rest⟩ calls
      = loop gw c n (hist ++ [Msg.funcResponse (fs.getLastD f0).name (Except.error e)]) r
          (calls ++ [⟨(fs.getLastD f0).name, (fs.getLastD f0).args, false, some e⟩]) := by
  simp only [loop, hex, hgw]

/-- Against a gateway that always requests a tool call, every round
appends exactly one trace entry, the loop never raises, and it returns a
nonempty text. -/
theorem loop_alwaysCalls (gw : Gateway) (c : Connectors) (hgw : alwaysCalls gw) (n : Nat) :
    ∀ (hist : List Msg) (resp : Resp) (calls : List Trace),
      resp.candidates ≠ [] →
      ∃ env, loop gw c n hist resp calls = Except.ok env ∧
        env.text ≠ "" ∧ env.calls.length ≤ calls.length + n := by
  induction n with
  | zero =>
    intro hist resp calls hr
    obtain ⟨cands⟩ := resp
    cases cands with
    | nil => exact absurd rfl hr
    | cons cand rest => exact ⟨_, rfl, pyOr_ne _ _ (by decide), by simp⟩
  | succ n ih =>
    intro hist resp calls hr
    obtain ⟨cands⟩ := resp
    cases cands with
    | nil => exact absurd rfl hr
    | cons cand rest =>
      obtain ⟨content, fcs⟩ := cand
      cases fcs with
      | nil =>
        rw [loop_step_final]
        exact ⟨_, rfl, pyOr_ne _ _ (by decide), by simp⟩
      | cons f0 fs =>
        cases hex : execAttempt c (fs.getLastD f0).name (fs.getLastD f0).args with
        | ok result =>
          obtain ⟨r, cand', cs', f0', fs', hgwr, hc', hf'⟩ :=
            hgw (hist ++ [Msg.funcResponse (fs.getLastD f0).name (Except.ok result)])
          obtain ⟨env, henv, htext, hlen⟩ :=
            ih (hist ++ [Msg.funcResponse (fs.getLastD f0).name (Except.ok result)]) r
              (calls ++ [⟨(fs.getLastD f0).name, (fs.getLastD f0).args, true, none⟩])
              (by rw [hc']; simp)
          refine ⟨env, ?_, htext, ?_⟩
          · rw [loop_step_exec_ok gw c n hist calls content rest f0 fs result r hex hgwr]
            exact henv
          · simp only [List.length_append, List.length_cons, List.length_nil] at hlen
            omega
        | error e =>
          obtain ⟨r, cand', cs', f0', fs', hgwr, hc', hf'⟩ :=
            hgw (hist ++ [Msg.funcResponse (fs.getLastD f0).name (Except.error e)])
          obtain ⟨env, henv, htext, hlen⟩ :=
            ih (hist ++ [Msg.funcResponse (fs.getLastD f0).name (Except.error e)]) r
              (calls ++ [⟨(fs.getLastD f0).name, (fs.getLastD f0).args, false, some e⟩])
              (by rw [hc']; simp)
          refine ⟨env, ?_, htext, ?_⟩
          · rw [loop_step_exec_error gw c n hist calls content rest f0 fs e r hex hgwr]
            exact henv
          · simp only [List.length_append, List.length_cons, List.length_nil] at hlen
            omega

/-- A string with a nonempty prefix is nonempty. -/
theorem prefixed_ne_empty (p s : String) (hp : p.length ≠ 0) : p ++ s ≠ "" := by
  intro h
  have hl := congrArg String.length h
  rw [String.length_append] at hl
  have h0 : ("" : String).length = 0 := rfl
  omega

/-! Claim theorems. -/

/-- C9: the unguarded `resp.candidates[0]` in the fallback is reachable:
a gateway whose first response has no candidates makes `chat` raise an
`IndexError` instead of returning an envelope. -/
theorem fallback_index_reachable :
    chat gwNoCand connEcho "q" = Except.error indexErrorMsg := rfl

/-- C6: when a round's response proposes several calls, processing it is
identical to processing a response that proposes only the last of them:
exactly the last proposed call is executed and traced, the earlier ones
are silently dropped. -/
theorem last_call_selected (gw : Gateway) (c : Connectors) (n : Nat) (hist : List Msg)
    (calls : List Trace) (content : Content) (rest : List Candidate)
    (f0 : FC) (fs : List FC) :
    loop gw c (n + 1) hist ⟨⟨content, f0 :: fs⟩ :: rest⟩ calls
      = loop gw c (n + 1) hist ⟨⟨content, [fs.getLastD f0]⟩ :: rest⟩ calls := by
  simp only [loop, List.getLastD]

/-- C4: a requested capability name absent from `_EXEC_MAP` does not
crash the loop: one trace entry with `ok := false` and the nonempty error
`Unknown tool: ...` is appended, the error payload is sent back to the
model, and the loop continues with the next round. -/
theorem unknown_capability_recovered (gw : Gateway) (c : Connectors) (n : Nat)
    (hist : List Msg) (calls : List Trace) (content : Content) (rest : List Candidate)
    (name : String) (args : Args) (r : Resp)
    (hname : EXEC_MAP c name = none)
    (hgw : gw (hist ++ [Msg.funcResponse name (Except.error ("Unknown tool: " ++ name))])
      = Except.ok r) :
    loop gw c (n + 1) hist ⟨⟨content, [⟨name, args⟩]⟩ :: rest⟩ calls
      = loop gw c n (hist ++ [Msg.funcResponse name (Except.error ("Unknown tool: " ++ name))]) r
          (calls ++ [⟨name, args, false, some ("Unknown tool: " ++ name)⟩])
    ∧ "Unknown tool: " ++ name ≠ "" := by
  have hex : execAttempt c name args = Except.error ("Unknown tool: " ++ name) := by
    unfold execAttempt
    rw [hname]
  exact ⟨loop_step_exec_error gw c n hist calls content rest ⟨name, args⟩ [] _ r hex hgw,
    prefixed_ne_empty _ _ (by decide)⟩

/-- C4 witness: a concrete unknown name `nope` against concrete stubs. -/
theorem unknown_capability_recovered_witness :
    loop gwCall connEcho 1 [] ⟨[⟨⟨[]⟩, [⟨"nope", []⟩]⟩]⟩ []
      = loop gwCall connEcho 0 [Msg.funcResponse "nope" (Except.error ("Unknown tool: " ++ "nope"))]
          respCall [⟨"nope", [], false, some ("Unknown tool: " ++ "nope")⟩]
    ∧ "Unknown tool: " ++ "nope" ≠ "" :=
  unknown_capability_recovered gwCall connEcho 0 [] [] ⟨[]⟩ [] "nope" [] respCall rfl rfl

/-- C5: an exception raised by a capability's underlying executor is
caught at the tool-execution boundary: the round appends a trace entry
with `ok := false` and the error set, feeds the error payload back to the
model, and continues; moreover every exception `chat` lets escape to the
caller stems from the gateway (or is the fallback `IndexError`), never
from a tool or data source. -/
theorem data_source_error_recovered (gw : Gateway) (c : Connectors) (n : Nat)
    (hist : List Msg) (calls : List Trace) (content : Content) (rest : List Candidate)
    (name : String) (args : Args) (fn : Args → Except String PyVal) (e : String) (r : Resp)
    (hfn : EXEC_MAP c name = some fn)
    (he : fn args = Except.error e)
    (hgw : gw (hist ++ [Msg.funcResponse name (Except.error e)]) = Except.ok r) :
    (loop gw c (n + 1) hist ⟨⟨content, [⟨name, args⟩]⟩ :: rest⟩ calls
      = loop gw c n (hist ++ [Msg.funcResponse name (Except.error e)]) r
          (calls ++ [⟨name, args, false, some e⟩]))
    ∧ ∀ q e2, chat gw c q = Except.error e2 →
        (∃ hs, gw hs = Except.error e2) ∨ e2 = indexErrorMsg := by
  have hex : execAttempt c name args = Except.error e := by
    unfold execAttempt
    rw [hfn]
    exact he
  exact ⟨loop_step_exec_error gw c n hist calls content rest ⟨name, args⟩ [] e r hex hgw,
    fun q e2 h => chat_error_sources gw c q e2 h⟩

/-- C5 witness: `tiles_summary` raising a connection error against
concrete stubs. -/
theorem data_source_error_recovered_witness :
    loop gwCall connBoom 1 [] ⟨[⟨⟨[]⟩, [⟨"tiles_summary", []⟩]⟩]⟩ []
      = loop gwCall connBoom 0
          [Msg.funcResponse "tiles_summary" (Except.error "ConnectionError: connection refused")]
          respCall [⟨"tiles_summary", [], false, some "ConnectionError: connection refused"⟩] :=
  (data_source_error_recovered gwCall connBoom 0 [] [] ⟨[]⟩ [] "tiles_summary" []
    (fun _ => connBoom.tiles_summary) "ConnectionError: connection refused" respCall
    rfl rfl rfl).1

/-- C10: when the tool executes successfully but the gateway send of its
result raises, the single attempt yields two trace entries — first
`ok := true`, then the same name and arguments with `ok := false` and the
gateway's error — before the loop continues. -/
theorem gateway_failure_double_trace (gw : Gateway) (c : Connectors) (n : Nat)
    (hist : List Msg) (calls : List Trace) (content : Content) (rest : List Candidate)
    (name : String) (args : Args) (result : PyVal) (e : String) (r : Resp)
    (hex : execAttempt c name args = Except.ok result)
    (hgw1 : gw (hist ++ [Msg.funcResponse name (Except.ok result)]) = Except.error e)
    (hgw2 : gw (hist ++ [Msg.funcResponse name (Except.ok result),
        Msg.funcResponse name (Except.error e)]) = Except.ok r) :
    loop gw c (n + 1) hist ⟨⟨content, [⟨name, args⟩]⟩ :: rest⟩ calls
      = loop gw c n
          (hist ++ [Msg.funcResponse name (Except.ok result),
            Msg.funcResponse name (Except.error e)]) r
          (calls ++ [⟨name, args, true, none⟩, ⟨name, args, false, some e⟩]) := by
  simp only [loop, List.getLastD, hex, hgw1, List.append_assoc, List.cons_append,
    List.nil_append]
  rw [hgw2]

/-- C10 witness: a gateway raising exactly on the success-path send. -/
theorem gateway_failure_double_trace_witness :
    loop gwEvenOk connEcho 1 [] respCall []
      = loop gwEvenOk connEcho 0
          [Msg.funcResponse "get_mtd_costs" (Except.ok (PyVal.vInt 0)),
            Msg.funcResponse "get_mtd_costs" (Except.error "boom")] respCall
          [⟨"get_mtd_costs", [], true, none⟩, ⟨"get_mtd_costs", [], false, some "boom"⟩] :=
  gateway_failure_double_trace gwEvenOk connEcho 0 [] [] ⟨[]⟩ [] "get_mtd_costs" []
    (PyVal.vInt 0) "boom" respCall rfl rfl rfl

/-- C1 (amended): whenever `chat` returns an envelope its text is nonempty
and its trace has at most 12 entries — each of the 6 rounds can append
two entries when the gateway send of a successful result raises; against
a model that always requests a tool call, `chat` terminates and returns
an envelope with nonempty text and at most 6 trace entries. -/
theorem chat_round_budget (gw : Gateway) (c : Connectors) (q : String) :
    (∀ env, chat gw c q = Except.ok env → env.text ≠ "" ∧ env.calls.length ≤ 12) ∧
    (alwaysCalls gw →
      ∃ env, chat gw c q = Except.ok env ∧ env.text ≠ "" ∧ env.calls.length ≤ 6) := by
  constructor
  · intro env h
    unfold chat at h
    split at h
    · exact absurd h (by simp)
    · have hb := loop_ok_bound gw c 6 _ _ _ _ h
      exact ⟨hb.1, by simpa using hb.2⟩
  · intro hgw
    obtain ⟨r, cand, cs, f0, fs, hr, hc, hf⟩ := hgw [Msg.userQuery q]
    obtain ⟨env, henv, htext, hlen⟩ :=
      loop_alwaysCalls gw c hgw 6 [Msg.userQuery q] r [] (by rw [hc]; simp)
    refine ⟨env, ?_, htext, by simpa using hlen⟩
    unfold chat
    rw [hr]
    exact henv

/-- C1 witness: a gateway that always requests `get_mtd_costs`. -/
theorem chat_round_budget_witness :
    ∃ env, chat gwCall connEcho "hi" = Except.ok env ∧ env.text ≠ "" ∧ env.calls.length ≤ 6 :=
  (chat_round_budget gwCall connEcho "hi").2
    (fun _ => ⟨respCall, ⟨⟨[]⟩, [⟨"get_mtd_costs", []⟩]⟩, [], ⟨"get_mtd_costs", []⟩, [],
      rfl, rfl, rfl⟩)

/-- C1 fails as stated: a gateway raising on every success-path send makes
every round append two trace entries, so the returned envelope carries 12
trace entries, more than the claimed bound of 6. -/
theorem chat_round_budget_counterexample :
    (chat gwOddOk connEcho "q").map (fun env => env.calls.length) = Except.ok 12
      ∧ ¬ (12 ≤ 6) :=
  ⟨by decide, by decide⟩

/-- C2 (amended): the `days` argument of `get_daily_cost_trend` is not
clamped: an in-range or out-of-range integer is passed to the executor
unchanged, a missing argument defaults to 30, and a non-numeric value
makes `int()` raise inside the guarded executor call (recovered as an
error trace, per C5, never reaching the caller). -/
theorem days_not_clamped (c : Connectors) (d : Int) (s : String)
    (hs : pyIntOfString s = none) :
    execAttempt c "get_daily_cost_trend" [("days", PyVal.vInt d)] = c.get_daily_cost_trend d
    ∧ execAttempt c "get_daily_cost_trend" [] = c.get_daily_cost_trend 30
    ∧ execAttempt c "get_daily_cost_trend" [("days", PyVal.vStr s)]
        = Except.error ("invalid literal for int with base 10: " ++ s) := by
  refine ⟨rfl, rfl, ?_⟩
  simp [execAttempt, EXEC_MAP, kwGet, pyInt, hs]

/-- C2 witness: `days := 7`, the missing-argument default, and the
non-numeric string `oops`. -/
theorem days_not_clamped_witness :
    pyIntOfString "oops" = none
    ∧ (execAttempt connEcho "get_daily_cost_trend" [("days", PyVal.vInt 7)]
        = connEcho.get_daily_cost_trend 7
      ∧ execAttempt connEcho "get_daily_cost_trend" [] = connEcho.get_daily_cost_trend 30
      ∧ execAttempt connEcho "get_daily_cost_trend" [("days", PyVal.vStr "oops")]
          = Except.error ("invalid literal for int with base 10: " ++ "oops")) :=
  ⟨by decide, days_not_clamped connEcho 7 "oops" (by decide)⟩

/-- C2 fails as stated: `days := 400` reaches the executor as 400, not
clamped to 365 — the echoing connector returns the argument it was
actually invoked with. -/
theorem days_not_clamped_counterexample :
    execAttempt connEcho "get_daily_cost_trend" [("days", PyVal.vInt 400)]
      = Except.ok (PyVal.vInt 400) ∧ (400 : Int) ≠ 365 :=
  ⟨rfl, by decide⟩

/-- C3 (amended): the chat entry point performs no input validation at
all: an empty query is not rejected — it is sent to the model like any
other query and the loop proceeds normally on the model's answer. -/
theorem empty_query_not_rejected (gw : Gateway) (c : Connectors) (r : Resp)
    (content : Content) (cs : List Candidate)
    (h1 : gw [Msg.userQuery ""] = Except.ok r)
    (h2 : r.candidates = ⟨content, []⟩ :: cs) :
    chat gw c "" = Except.ok ⟨pyOr (pyStrip (joinParts content.parts)) "No response.", []⟩ := by
  unfold chat
  rw [h1]
  obtain ⟨cands⟩ := r
  have h3 : cands = ⟨content, []⟩ :: cs := h2
  subst h3
  exact loop_step_final gw c 5 _ [] content cs

/-- C3 witness: the empty query against a model answering `hello`. -/
theorem empty_query_not_rejected_witness :
    chat (gwText "hello") connEcho ""
      = Except.ok ⟨pyOr (pyStrip (joinParts (Content.mk [Part.mk "hello"]).parts))
          "No response.", []⟩ :=
  empty_query_not_rejected (gwText "hello") connEcho (respText "hello")
    (Content.mk [Part.mk "hello"]) [] rfl rfl

/-- C3 fails as stated: the empty query is not rejected before the loop —
`chat` consults the model and returns its answer as a normal envelope
rather than a caller-visible error. -/
theorem empty_query_counterexample :
    chat (gwText "hello") connEcho "" = Except.ok ⟨"hello", []⟩ := by decide

/-- C7 (amended): if the model's first response contains no tool-call
request, the envelope has an empty trace and its text is the model's
first final response stripped of surrounding whitespace (the placeholder
`No response.` when that is empty). -/
theorem first_final_text (gw : Gateway) (c : Connectors) (q : String) (r : Resp)
    (content : Content) (cs : List Candidate)
    (h1 : gw [Msg.userQuery q] = Except.ok r)
    (h2 : r.candidates = ⟨content, []⟩ :: cs) :
    chat gw c q = Except.ok ⟨pyOr (pyStrip (joinParts content.parts)) "No response.", []⟩ := by
  unfold chat
  rw [h1]
  obtain ⟨cands⟩ := r
  have h3 : cands = ⟨content, []⟩ :: cs := h2
  subst h3
  exact loop_step_final gw c 5 _ [] content cs

/-- C7 witness: a model whose first response is the final text `yo`. -/
theorem first_final_text_witness :
    chat (gwText "yo") connEcho "hi"
      = Except.ok ⟨pyOr (pyStrip (joinParts (Content.mk [Part.mk "yo"]).parts))
          "No response.", []⟩ :=
  first_final_text (gwText "yo") connEcho "hi" (respText "yo")
    (Content.mk [Part.mk "yo"]) [] rfl rfl

/-- C7 fails as stated: a first final response with surrounding
whitespace is stripped, so the envelope text differs from the model's
first final response. -/
theorem first_final_text_counterexample :
    chat (gwText " hi ") connEcho "q" = Except.ok ⟨"hi", []⟩ ∧ "hi" ≠ " hi " :=
  ⟨by decide, by decide⟩

/-- C8: `chat` is deterministic with respect to its collaborators — two
runs of the identical query against the same (pure) gateway and connector
stubs that return envelopes return identical trace sequences. -/
theorem chat_deterministic (gw : Gateway) (c : Connectors) (q : String)
    (env1 env2 : Envelope)
    (h1 : chat gw c q = Except.ok env1) (h2 : chat gw c q = Except.ok env2) :
    env1.calls = env2.calls := by
  rw [h1] at h2
  injection h2 with h
  rw [h]

/-- C8 witness: two runs of the same query against the same stubs. -/
theorem chat_deterministic_witness :
    (Envelope.mk "hello" []).calls = (Envelope.mk "hello" []).calls :=
  chat_deterministic (gwText "hello") connEcho "q" ⟨"hello", []⟩ ⟨"hello", []⟩
    (by decide) (by decide)

end AgentApp
